import Mathlib

/-
Verification of the lazy TikTok embed lifecycle of this repository.

The development shallowly embeds the three implementations found in the
source:
  * the TikTokEmbed class of src/unnamed/part_002 (and its near-identical
    twin in src/unnamed/part_000), with its load / unload / handleLoadError
    operations and the setupLazyLoading entry point;
  * the hydrateTikTok / buildIframe / initTikTok path of src/app.js;
  * the inline hash-tiktok-card script of src/app.js (lines 1049-1097).

DOM state is represented structurally: a container's innerHTML is a value
of the Contents type, an iframe is a record of the attributes the source
sets, and an embed URL is a record of host, path segments and query
parameters (the source builds URLs with new URL plus searchParams.set,
whose observable result for the identifiers used here is exactly this
record).  Analytics calls (trackEvent) and console logging are side-effect
free with respect to every property below and are not modelled.
-/

/-! ## JavaScript string splitting

The TikTokEmbed class extracts the video id with
url.split(sep).pop().split(sep2)[0] where both separators are single
characters.  splitOnChar mirrors JavaScript String.prototype.split with a
one-character separator: splitting the empty string yields one empty
field, and a trailing separator yields a trailing empty field. -/

def splitOnChar (sep : Char) : List Char → List (List Char)
  | [] => [[]]
  | c :: cs =>
    let r := splitOnChar sep cs
    if c = sep then [] :: r
    else
      match r with
      | [] => [[c]]
      | h :: t => (c :: h) :: t

/-- Video-id extraction of TikTokEmbed.load (src/unnamed/part_002 line 65,
src/unnamed/part_000 line 929): this.url.split(sep).pop().split(sep2)[0]
with sep the slash and sep2 the question mark — the last slash-separated
segment of the URL, truncated at the first question mark.  JavaScript
split never returns an empty array, so pop and index zero are total;
getLastD and headD with empty defaults agree with them. -/
def extractVideoId (url : String) : String :=
  String.mk ((splitOnChar '?' ((splitOnChar '/' url.data).getLastD [])).headD [])

/-! ## The regex of src/app.js

hydrateTikTok and the inline script extract the id with
url.match of the pattern video slash capture-digits: scanning left to
right for the literal text video-slash followed by at least one digit,
capturing the maximal digit run. -/

def digitRun : List Char → List Char
  | [] => []
  | c :: cs => if c.isDigit then c :: digitRun cs else []

def videoIdAt (l : List Char) : Option (List Char) :=
  if l.take 6 = ['v', 'i', 'd', 'e', 'o', '/'] then
    let d := digitRun (l.drop 6)
    if d = [] then none else some d
  else none

def findVideoId : List Char → Option (List Char)
  | [] => none
  | c :: cs =>
    match videoIdAt (c :: cs) with
    | some d => some d
    | none => findVideoId cs

/-- Capture group of url.match at src/app.js lines 1054 and 1309: the first
occurrence of the literal video-slash that is followed by a digit yields
the maximal digit run after it; otherwise the match is none. -/
def matchVideoId (url : String) : Option String :=
  (findVideoId url.data).map String.mk

/-! ## Embed URLs -/

/-- Structural form of an embed URL: host, slash-separated path segments
and query parameters in insertion order.  For the identifiers appearing
in this development (digits and simple hyphenated words) the rendering of
new URL with searchParams.set is exactly scheme, host, the joined path
and the ampersand-joined parameters, so equality of these records matches
equality of the rendered URL strings. -/
structure EmbedUrl where
  host : String
  pathSegments : List String
  params : List (String × String)
deriving DecidableEq

/-- Embed URL built by TikTokEmbed.load of src/unnamed/part_002 (lines
75-82): path embed/v2/videoId with the CONFIG parameters autoplay=1,
muted=1, controls=1, rel=0, loop=0. -/
def tiktokEmbedUrl (videoId : String) : EmbedUrl :=
  { host := "www.tiktok.com",
    pathSegments := ["embed", "v2", videoId],
    params := [("autoplay", "1"), ("muted", "1"), ("controls", "1"), ("rel", "0"), ("loop", "0")] }

/-- Embed URL built by the TikTokEmbed.load variant of
src/unnamed/part_000 (lines 939-943): same path, only autoplay and muted
parameters. -/
def tiktokEmbedUrl000 (videoId : String) : EmbedUrl :=
  { host := "www.tiktok.com",
    pathSegments := ["embed", "v2", videoId],
    params := [("autoplay", "1"), ("muted", "1")] }

/-- Embed URL of buildIframe in src/app.js (line 1293): a template string
placing the id after the extra path segment video, with parameters
lang=en-US, autoplay=1, controls=1, muted=1. -/
def buildIframeUrl (videoId : String) : EmbedUrl :=
  { host := "www.tiktok.com",
    pathSegments := ["embed", "v2", "video", videoId],
    params := [("lang", "en-US"), ("autoplay", "1"), ("controls", "1"), ("muted", "1")] }

/-- Path segment standing directly after the embed/v2 prefix of an embed
URL, when the URL has that prefix. -/
def segmentAfterEmbedV2 (u : EmbedUrl) : Option String :=
  match u.pathSegments with
  | "embed" :: "v2" :: s :: _ => some s
  | _ => none

/-! ## The TikTokEmbed class (src/unnamed/part_002 lines 31-188) -/

/-- Attributes set on the iframe by TikTokEmbed.load (lines 82-98). -/
structure TikTokIframe where
  src : EmbedUrl
  title : String
  sandbox : String
  referrerPolicy : String
  scrolling : String
  allow : String
  allowFullscreen : Bool
deriving DecidableEq

/-- Container innerHTML, structurally: the original poster markup (button,
poster image and play glyph, rebuilt by unload from this.posterSrc and
this.title), a frame wrapper div holding exactly one iframe (built by
load), or the error box of handleLoadError (a paragraph of text plus an
optional outbound link). -/
inductive Contents where
  | poster : Contents
  | frame : TikTokIframe → Contents
  | errorBox : String → Option String → Contents
deriving DecidableEq

/-- Number of iframe elements inside the container. -/
def iframeCount : Contents → Nat
  | Contents.poster => 0
  | Contents.frame _ => 1
  | Contents.errorBox _ _ => 0

/-- Href of the link inside an error box, when the contents are an error
box holding a link. -/
def errorLinkOf : Contents → Option String
  | Contents.errorBox _ l => l
  | _ => none

/-- State of one TikTokEmbed instance: the constructor fields url, title,
posterSrc, the isLoaded flag, the iframe field, the container contents,
and the visibility of the outer press-link that handleLoadError reveals. -/
structure TikTokEmbed where
  url : String
  title : String
  posterSrc : String
  isLoaded : Bool
  iframe : Option TikTokIframe
  container : Contents
  pressLinkVisible : Bool
deriving DecidableEq

/-- Constructor state (lines 32-41): flags clear, no iframe, poster markup
in the container. -/
def TikTokEmbed.mk0 (url title posterSrc : String) : TikTokEmbed :=
  { url := url, title := title, posterSrc := posterSrc,
    isLoaded := false, iframe := none, container := Contents.poster,
    pressLinkVisible := false }

/-- TikTokEmbed.load (lines 61-122).  Returns unchanged when already
loaded; extracts the video id and, when the id is the empty string (a
falsy value in JavaScript), only warns and returns; otherwise builds the
iframe with the embed URL and the attribute values of lines 85-98, wraps
it in the frame div and replaces the container contents with it, setting
isLoaded. -/
def TikTokEmbed.load (e : TikTokEmbed) : TikTokEmbed :=
  if e.isLoaded then e
  else
    let videoId := extractVideoId e.url
    if videoId = "" then e
    else
      let ifr : TikTokIframe :=
        { src := tiktokEmbedUrl videoId,
          title := e.title,
          sandbox := "allow-scripts allow-same-origin allow-presentation",
          referrerPolicy := "no-referrer-when-downgrade",
          scrolling := "no",
          allow := "fullscreen",
          allowFullscreen := true }
      { e with iframe := some ifr, container := Contents.frame ifr, isLoaded := true }

/-- TikTokEmbed.unload (lines 124-144).  Returns unchanged when not
loaded; otherwise clears the detached iframe's src and drops the
reference (the field becomes none), restores the poster markup rebuilt
from this.posterSrc and this.title, clears isLoaded and re-runs init
(poster wiring, not part of this state). -/
def TikTokEmbed.unload (e : TikTokEmbed) : TikTokEmbed :=
  if !e.isLoaded then e
  else
    { e with iframe := none, container := Contents.poster, isLoaded := false }

/-- TikTokEmbed.handleLoadError (lines 146-162): reveals the press-link of
the enclosing press-card and replaces the container contents with the
error box — a Video unavailable paragraph plus a link to the original
this.url.  The isLoaded flag is not touched. -/
def TikTokEmbed.handleLoadError (e : TikTokEmbed) : TikTokEmbed :=
  { e with pressLinkVisible := true,
           container := Contents.errorBox "Video unavailable" (some e.url) }

/-! ## Lifecycle sequences -/

inductive LifecycleOp where
  | load : LifecycleOp
  | unload : LifecycleOp
deriving DecidableEq

def applyOp (e : TikTokEmbed) : LifecycleOp → TikTokEmbed
  | LifecycleOp.load => e.load
  | LifecycleOp.unload => e.unload

def applyOps (e : TikTokEmbed) : List LifecycleOp → TikTokEmbed
  | [] => e
  | op :: ops => applyOps (applyOp e op) ops

/-- The hydration invariant: the container holds exactly one iframe when
loaded, none otherwise, and the iframe field is populated exactly when
loaded. -/
def embedInvariant (e : TikTokEmbed) : Prop :=
  iframeCount e.container = (if e.isLoaded then 1 else 0) ∧
  e.iframe.isSome = e.isLoaded

/-! ## The hydrateTikTok path of src/app.js (lines 1292-1379) -/

/-- Attributes set on the iframe by buildIframe (src/app.js lines
1292-1302). -/
structure AppIframe where
  src : EmbedUrl
  loading : String
  title : String
  referrerPolicy : String
  allow : String
  allowFullscreen : Bool
deriving DecidableEq

/-- buildIframe (src/app.js lines 1292-1302). -/
def buildIframe (videoId : String) : AppIframe :=
  { src := buildIframeUrl videoId,
    loading := "lazy",
    title := "TikTok video",
    referrerPolicy := "strict-origin-when-cross-origin",
    allow := "accelerometer; autoplay; clipboard-write; encrypted-media; gyroscope; picture-in-picture; web-share",
    allowFullscreen := true }

/-- The ttk-error element of a card: hidden flag, paragraph text and the
href of the link hydrateTikTok writes into it. -/
structure ErrBox where
  hidden : Bool
  text : String
  linkHref : Option String
deriving DecidableEq

/-- One ttk card as hydrateTikTok sees it: the data attributes, the
poster button and image, the frame element with the iframes appended to
it, and the error element. -/
structure Card where
  tiktokUrl : String
  poster : String
  posterBtnHidden : Bool
  posterImgSrc : String
  frameHidden : Bool
  frameIframes : List AppIframe
  err : ErrBox
deriving DecidableEq

/-- State of one card together with its membership in the page-wide
state.hydratedTikToks set (src/app.js line 1186). -/
structure TikTokPage where
  hydrated : Bool
  card : Card
deriving DecidableEq

/-- hydrateTikTok (src/app.js lines 1304-1356).  Returns unchanged when
the card is already in the hydrated set; otherwise adds the card to the
set first, sets the poster image source, and then either reveals the
error element with the fallback markup (no id extractable) or hides the
poster, reveals the frame and appends the iframe of buildIframe.  The
IntersectionObserver it then attaches to the iframe only rewrites the
iframe's own src and is not part of the card state modelled here. -/
def hydrateTikTok (s : TikTokPage) : TikTokPage :=
  if s.hydrated then s
  else
    let card1 := { s.card with posterImgSrc := s.card.poster }
    match matchVideoId card1.tiktokUrl with
    | none =>
        { hydrated := true,
          card := { card1 with
                      err := { hidden := false,
                               text := "Couldn’t load video.",
                               linkHref := some card1.tiktokUrl } } }
    | some vid =>
        { hydrated := true,
          card := { card1 with
                      posterBtnHidden := true,
                      frameHidden := false,
                      frameIframes := card1.frameIframes ++ [buildIframe vid] } }

/-! ## The inline hash-tiktok-card script of src/app.js (lines 1049-1097) -/

/-- State of the inline script's single card: the dataset hydrated flag
and the element contents. -/
structure InlineCardState where
  hydrated : Bool
  url : String
  contents : Contents
deriving DecidableEq

/-- Guard and marking of the inline hydrate (src/app.js lines 1058-1060):
a second call on a card whose dataset records hydration is a no-op.  The
iframe the function then configures is never appended in the source (the
body ends in an elided rest-of-code comment at line 1076), so hydration
here only flips the flag. -/
def inlineHydrate (el : InlineCardState) : InlineCardState :=
  if el.hydrated then el else { el with hydrated := true }

/-- Fallback installed by the inline iframe's onerror handler (src/app.js
lines 1071-1074): the element innerHTML becomes a single styled paragraph
reading Video unavailable, with no link. -/
def inlineHydrateOnError (el : InlineCardState) : InlineCardState :=
  { el with contents := Contents.errorBox "Video unavailable" none }

/-! ## setupLazyLoading (src/unnamed/part_002 lines 193-243) -/

/-- Per-container outcome of setupLazyLoading once setup has finished and
any scheduled fallback timeout has fired: the embed state and whether an
IntersectionObserver was attached to the container (so that hydration
waits on visibility events).  With reduced motion preferred the function
constructs the embed and returns without observing or loading (lines
198-204); with IntersectionObserver support it constructs the embed and
observes (lines 230-234); otherwise it constructs the embed and schedules
load via setTimeout (lines 237-241). -/
structure LazySetupOutcome where
  embed : TikTokEmbed
  observerAttached : Bool
deriving DecidableEq

def setupLazyLoading (prefersReducedMotion supportsIntersectionObserver : Bool)
    (url title posterSrc : String) : LazySetupOutcome :=
  if prefersReducedMotion then
    { embed := TikTokEmbed.mk0 url title posterSrc, observerAttached := false }
  else if supportsIntersectionObserver then
    { embed := TikTokEmbed.mk0 url title posterSrc, observerAttached := true }
  else
    { embed := (TikTokEmbed.mk0 url title posterSrc).load, observerAttached := false }

/-! ## setupTikTokEmbeds (src/unnamed/part_000 lines 992-1019) -/

/-- Per-container outcome of setupTikTokEmbeds: the embed constructed
during setup (none when construction is deferred to the observer
callback) and whether the container was observed.  In the fallback branch
(reduced motion preferred or IntersectionObserver missing, lines
999-1003) the embed is constructed immediately but load is never called;
otherwise construction waits for the first intersection (lines
1005-1018). -/
def setupTikTokEmbeds (prefersReducedMotion supportsIntersectionObserver : Bool)
    (url title posterSrc : String) : Option TikTokEmbed × Bool :=
  if prefersReducedMotion || !supportsIntersectionObserver then
    (some (TikTokEmbed.mk0 url title posterSrc), false)
  else
    (none, true)

/-! ## Observer callbacks -/

/-- Per-container observer state for setupTikTokEmbeds of
src/unnamed/part_000: whether the container is still observed, the embed
stored on the element, and the dataset needed to construct one. -/
structure ObservedContainer where
  observed : Bool
  embed : Option TikTokEmbed
  url : String
  title : String
  posterSrc : String
deriving DecidableEq

/-- Delivery of one IntersectionObserver entry to the callback of
src/unnamed/part_000 lines 1006-1016.  Events reach the callback only
while the container is observed; an intersecting entry for a container
without an embed constructs the embed and unobserves the container. -/
def part000ObserverStep (s : ObservedContainer) (isIntersecting : Bool) : ObservedContainer :=
  if s.observed = false then s
  else if isIntersecting && s.embed.isNone then
    { s with embed := some (TikTokEmbed.mk0 s.url s.title s.posterSrc), observed := false }
  else s

/-- Per-container observer state for setupLazyLoading of
src/unnamed/part_002: the container's embed (stored on the element at
line 232) and whether the container is observed. -/
structure ObservedEmbed where
  observed : Bool
  embed : TikTokEmbed
deriving DecidableEq

/-- Delivery of one IntersectionObserver entry to the callback of
src/unnamed/part_002 lines 207-228.  An intersecting entry loads the
embed when it is not yet loaded; a non-intersecting entry does nothing
(the unload call is commented out, lines 217-222).  The callback never
unobserves the container. -/
def part002ObserverStep (s : ObservedEmbed) (isIntersecting : Bool) : ObservedEmbed :=
  if s.observed = false then s
  else if isIntersecting then
    if s.embed.isLoaded = false then { s with embed := s.embed.load } else s
  else s

/-! ## Concrete sample states used by witnesses and counterexamples -/

def sampleUrl : String := "https://example.com/video/123456"

def embed123 : TikTokEmbed := TikTokEmbed.mk0 sampleUrl "TikTok video" "p.jpg"

def notAUrlEmbed : TikTokEmbed := TikTokEmbed.mk0 "not-a-url" "TikTok video" "p.jpg"

def emptyUrlEmbed : TikTokEmbed := TikTokEmbed.mk0 "" "TikTok video" "p.jpg"

def cardNoMatch : Card :=
  { tiktokUrl := "not-a-url", poster := "p.jpg", posterBtnHidden := false,
    posterImgSrc := "", frameHidden := true, frameIframes := [],
    err := { hidden := true, text := "", linkHref := none } }

def pageNoMatch : TikTokPage := { hydrated := false, card := cardNoMatch }

def card123 : Card :=
  { tiktokUrl := sampleUrl, poster := "p.jpg", posterBtnHidden := false,
    posterImgSrc := "", frameHidden := true, frameIframes := [],
    err := { hidden := true, text := "", linkHref := none } }

def page123 : TikTokPage := { hydrated := false, card := card123 }

def inlineCard0 : InlineCardState :=
  { hydrated := false, url := "https://www.tiktok.com/@u/video/123",
    contents := Contents.poster }

def obs000 : ObservedContainer :=
  { observed := true, embed := none, url := sampleUrl,
    title := "TikTok video", posterSrc := "p.jpg" }

def obs000done : ObservedContainer := { obs000 with observed := false }

def obs002 : ObservedEmbed := { observed := true, embed := embed123 }

def obs002loaded : ObservedEmbed := { observed := true, embed := embed123.load }

/-! ## Helper lemmas: the hydration invariant is preserved by the
lifecycle operations -/

theorem load_preserves_invariant (e : TikTokEmbed) (h : embedInvariant e) :
    embedInvariant e.load := by
  by_cases h1 : e.isLoaded = true
  · simpa [TikTokEmbed.load, h1] using h
  · by_cases h2 : extractVideoId e.url = ""
    · simpa [TikTokEmbed.load, h1, h2] using h
    · simp [TikTokEmbed.load, h1, h2, embedInvariant, iframeCount]

theorem unload_preserves_invariant (e : TikTokEmbed) (h : embedInvariant e) :
    embedInvariant e.unload := by
  by_cases h1 : e.isLoaded = true
  · simp [TikTokEmbed.unload, h1, embedInvariant, iframeCount]
  · simpa [TikTokEmbed.unload, h1] using h

theorem invariant_applyOps (e : TikTokEmbed) (ops : List LifecycleOp)
    (h : embedInvariant e) : embedInvariant (applyOps e ops) := by
  induction ops generalizing e with
  | nil => exact h
  | cons op ops ih =>
      cases op
      · exact ih e.load (load_preserves_invariant e h)
      · exact ih e.unload (unload_preserves_invariant e h)

/-! ## Claims -/

/-- C1: for every Placeholder whose source URL carries a well-formed
numeric video identifier (a nonempty all-digit extracted segment),
calling load from the unhydrated state makes the embed loaded and leaves
exactly one iframe in its container; and, from the constructed initial
state, across every sequence of load and unload calls the container holds
exactly one iframe when loaded and none otherwise, the iframe field being
populated exactly when loaded. -/
theorem claim_c1_load_hydrates_and_unique_embed :
    (∀ e : TikTokEmbed, e.isLoaded = false →
        extractVideoId e.url ≠ "" →
        (extractVideoId e.url).data.all Char.isDigit = true →
        (e.load).isLoaded = true ∧ iframeCount (e.load).container = 1) ∧
    (∀ (u t p : String) (ops : List LifecycleOp),
        iframeCount (applyOps (TikTokEmbed.mk0 u t p) ops).container
          = (if (applyOps (TikTokEmbed.mk0 u t p) ops).isLoaded then 1 else 0) ∧
        (applyOps (TikTokEmbed.mk0 u t p) ops).iframe.isSome
          = (applyOps (TikTokEmbed.mk0 u t p) ops).isLoaded) := by
  constructor
  · intro e h1 h2 _
    constructor
    · simp [TikTokEmbed.load, h1, h2]
    · simp [TikTokEmbed.load, h1, h2, iframeCount]
  · intro u t p ops
    exact invariant_applyOps (TikTokEmbed.mk0 u t p) ops ⟨rfl, rfl⟩

/-- Witness for C1 at the numeric sample URL, with the lifecycle sequence
load, unload, load. -/
theorem claim_c1_witness :
    (embed123.load.isLoaded = true ∧ iframeCount embed123.load.container = 1) ∧
    (iframeCount (applyOps (TikTokEmbed.mk0 sampleUrl "TikTok video" "p.jpg")
          [LifecycleOp.load, LifecycleOp.unload, LifecycleOp.load]).container
        = (if (applyOps (TikTokEmbed.mk0 sampleUrl "TikTok video" "p.jpg")
          [LifecycleOp.load, LifecycleOp.unload, LifecycleOp.load]).isLoaded then 1 else 0) ∧
      (applyOps (TikTokEmbed.mk0 sampleUrl "TikTok video" "p.jpg")
          [LifecycleOp.load, LifecycleOp.unload, LifecycleOp.load]).iframe.isSome
        = (applyOps (TikTokEmbed.mk0 sampleUrl "TikTok video" "p.jpg")
          [LifecycleOp.load, LifecycleOp.unload, LifecycleOp.load]).isLoaded) :=
  ⟨claim_c1_load_hydrates_and_unique_embed.1 embed123 rfl (by decide) (by decide),
   claim_c1_load_hydrates_and_unique_embed.2 sampleUrl "TikTok video" "p.jpg"
     [LifecycleOp.load, LifecycleOp.unload, LifecycleOp.load]⟩

/-- C3: load is idempotent — loading twice equals loading once, a load on
an already-loaded embed returns it unchanged, and the inline hydrate of
src/app.js is likewise idempotent through its dataset guard. -/
theorem claim_c3_load_idempotent :
    (∀ e : TikTokEmbed, e.load.load = e.load) ∧
    (∀ e : TikTokEmbed, e.isLoaded = true → e.load = e) ∧
    (∀ el : InlineCardState, inlineHydrate (inlineHydrate el) = inlineHydrate el) := by
  refine ⟨?_, ?_, ?_⟩
  · intro e
    by_cases h1 : e.isLoaded = true
    · simp [TikTokEmbed.load, h1]
    · by_cases h2 : extractVideoId e.url = ""
      · simp [TikTokEmbed.load, h1, h2]
      · simp [TikTokEmbed.load, h1, h2]
  · intro e h
    simp [TikTokEmbed.load, h]
  · intro el
    by_cases h : el.hydrated = true <;> simp [inlineHydrate, h]

/-- Witness for C3 at a loaded sample embed. -/
theorem claim_c3_witness :
    embed123.load.load = embed123.load ∧ notAUrlEmbed.load.load = notAUrlEmbed.load :=
  ⟨claim_c3_load_idempotent.2.1 embed123.load (by decide),
   claim_c3_load_idempotent.1 notAUrlEmbed⟩

/-- C4: unload on a loaded embed drops the iframe, restores the poster
markup and clears isLoaded, after which a load (for a URL with an
extractable identifier) hydrates again with a fresh iframe; unload on a
non-loaded embed is a no-op. -/
theorem claim_c4_unload_roundtrip :
    (∀ e : TikTokEmbed, e.isLoaded = true →
        e.unload.isLoaded = false ∧ e.unload.iframe = none ∧
        e.unload.container = Contents.poster ∧
        (extractVideoId e.url ≠ "" →
          e.unload.load.isLoaded = true ∧
          iframeCount e.unload.load.container = 1 ∧
          e.unload.load.iframe.isSome = true)) ∧
    (∀ e : TikTokEmbed, e.isLoaded = false → e.unload = e) := by
  constructor
  · intro e h
    refine ⟨by simp [TikTokEmbed.unload, h], by simp [TikTokEmbed.unload, h],
            by simp [TikTokEmbed.unload, h], ?_⟩
    intro h2
    refine ⟨?_, ?_, ?_⟩ <;>
      simp [TikTokEmbed.unload, TikTokEmbed.load, h, h2, iframeCount]
  · intro e h
    simp [TikTokEmbed.unload, h]

/-- Witness for C4 at the loaded sample embed and the fresh sample
embed. -/
theorem claim_c4_witness :
    (embed123.load.unload.isLoaded = false ∧ embed123.load.unload.iframe = none ∧
      embed123.load.unload.container = Contents.poster ∧
      (extractVideoId embed123.load.url ≠ "" →
        embed123.load.unload.load.isLoaded = true ∧
        iframeCount embed123.load.unload.load.container = 1 ∧
        embed123.load.unload.load.iframe.isSome = true)) ∧
    embed123.unload = embed123 :=
  ⟨claim_c4_unload_roundtrip.1 embed123.load (by decide),
   claim_c4_unload_roundtrip.2 embed123 rfl⟩

/-- C2 counterexample: for the source URL not-a-url, TikTokEmbed.load does
not transition to an error state with a fallback link — it hydrates: the
embed becomes loaded, the container holds one iframe, and no fallback
link is rendered. -/
theorem claim_c2_counterexample :
    notAUrlEmbed.load.isLoaded = true ∧
    iframeCount notAUrlEmbed.load.container = 1 ∧
    errorLinkOf notAUrlEmbed.load.container = none := by decide

/-- C2 amended: in hydrateTikTok of src/app.js, a card whose URL has no
video-id match does render the revealed fallback with a link to the
original URL; in the TikTokEmbed class, any URL with a nonempty final
segment (such as not-a-url) hydrates instead of erroring, and a URL whose
final segment is empty makes load return with the embed entirely
unchanged — no error state, no fallback. -/
theorem claim_c2_amended :
    (∀ s : TikTokPage, s.hydrated = false → matchVideoId s.card.tiktokUrl = none →
        (hydrateTikTok s).card.err.hidden = false ∧
        (hydrateTikTok s).card.err.linkHref = some s.card.tiktokUrl) ∧
    (∀ e : TikTokEmbed, e.isLoaded = false → extractVideoId e.url ≠ "" →
        (e.load).isLoaded = true ∧ errorLinkOf (e.load).container = none) ∧
    (∀ e : TikTokEmbed, e.isLoaded = false → extractVideoId e.url = "" → e.load = e) := by
  refine ⟨?_, ?_, ?_⟩
  · intro s h hm
    constructor <;> simp [hydrateTikTok, h, hm]
  · intro e h1 h2
    constructor
    · simp [TikTokEmbed.load, h1, h2]
    · simp [TikTokEmbed.load, h1, h2, errorLinkOf]
  · intro e h1 h2
    simp [TikTokEmbed.load, h1, h2]

/-- Witness for C2 amended at the not-a-url card, the not-a-url embed and
the empty-URL embed. -/
theorem claim_c2_witness :
    ((hydrateTikTok pageNoMatch).card.err.hidden = false ∧
      (hydrateTikTok pageNoMatch).card.err.linkHref = some pageNoMatch.card.tiktokUrl) ∧
    (notAUrlEmbed.load.isLoaded = true ∧ errorLinkOf notAUrlEmbed.load.container = none) ∧
    emptyUrlEmbed.load = emptyUrlEmbed :=
  ⟨claim_c2_amended.1 pageNoMatch rfl (by decide),
   claim_c2_amended.2.1 notAUrlEmbed rfl (by decide),
   claim_c2_amended.2.2 emptyUrlEmbed rfl (by decide)⟩

/-- C9: for every source URL whose final slash-separated segment (before
any query) is nonempty — including non-numeric strings such as not-a-url —
TikTokEmbed.load accepts that raw segment as the video id: the embed
becomes loaded and its iframe points at the embed URL whose path segment
directly after embed/v2 is the raw segment, in both the part_002 and
part_000 URL shapes. -/
theorem claim_c9_raw_segment_accepted :
    ∀ e : TikTokEmbed, e.isLoaded = false → extractVideoId e.url ≠ "" →
      (e.load).isLoaded = true ∧
      (e.load).iframe = some
        { src := tiktokEmbedUrl (extractVideoId e.url),
          title := e.title,
          sandbox := "allow-scripts allow-same-origin allow-presentation",
          referrerPolicy := "no-referrer-when-downgrade",
          scrolling := "no",
          allow := "fullscreen",
          allowFullscreen := true } ∧
      segmentAfterEmbedV2 (tiktokEmbedUrl (extractVideoId e.url))
        = some (extractVideoId e.url) ∧
      segmentAfterEmbedV2 (tiktokEmbedUrl000 (extractVideoId e.url))
        = some (extractVideoId e.url) := by
  intro e h1 h2
  refine ⟨by simp [TikTokEmbed.load, h1, h2], by simp [TikTokEmbed.load, h1, h2], rfl, rfl⟩

/-- Witness for C9 at the source URL not-a-url, whose extracted segment is
the whole string. -/
theorem claim_c9_witness :
    extractVideoId notAUrlEmbed.url = "not-a-url" ∧
    (notAUrlEmbed.load.isLoaded = true ∧
      notAUrlEmbed.load.iframe = some
        { src := tiktokEmbedUrl (extractVideoId notAUrlEmbed.url),
          title := notAUrlEmbed.title,
          sandbox := "allow-scripts allow-same-origin allow-presentation",
          referrerPolicy := "no-referrer-when-downgrade",
          scrolling := "no",
          allow := "fullscreen",
          allowFullscreen := true } ∧
      segmentAfterEmbedV2 (tiktokEmbedUrl (extractVideoId notAUrlEmbed.url))
        = some (extractVideoId notAUrlEmbed.url) ∧
      segmentAfterEmbedV2 (tiktokEmbedUrl000 (extractVideoId notAUrlEmbed.url))
        = some (extractVideoId notAUrlEmbed.url)) :=
  ⟨by decide, claim_c9_raw_segment_accepted notAUrlEmbed rfl (by decide)⟩

/-- C10: hydrateTikTok adds the card to the hydrated set before attempting
id extraction, so after any run — the error branch included — the card is
marked hydrated, a repeat call (such as the poster click handler) is a
no-op, and the rendered error state is permanent within the page. -/
theorem claim_c10_hydration_mark_permanent :
    (∀ s : TikTokPage, (hydrateTikTok s).hydrated = true) ∧
    (∀ s : TikTokPage, s.hydrated = true → hydrateTikTok s = s) ∧
    (∀ s : TikTokPage, hydrateTikTok (hydrateTikTok s) = hydrateTikTok s) := by
  have hmark : ∀ s : TikTokPage, (hydrateTikTok s).hydrated = true := by
    intro s
    by_cases h : s.hydrated = true
    · simp [hydrateTikTok, h]
    · cases hm : matchVideoId s.card.tiktokUrl <;> simp [hydrateTikTok, h, hm]
  have hnoop : ∀ s : TikTokPage, s.hydrated = true → hydrateTikTok s = s := by
    intro s h
    simp [hydrateTikTok, h]
  exact ⟨hmark, hnoop, fun s => hnoop (hydrateTikTok s) (hmark s)⟩

/-- Witness for C10 at the not-a-url card: the error branch marks the card
hydrated and the second call changes nothing. -/
theorem claim_c10_witness :
    (hydrateTikTok pageNoMatch).hydrated = true ∧
    hydrateTikTok (hydrateTikTok pageNoMatch) = hydrateTikTok pageNoMatch ∧
    hydrateTikTok { hydrated := true, card := cardNoMatch }
      = { hydrated := true, card := cardNoMatch } :=
  ⟨claim_c10_hydration_mark_permanent.1 pageNoMatch,
   claim_c10_hydration_mark_permanent.2.2 pageNoMatch,
   claim_c10_hydration_mark_permanent.2.1 { hydrated := true, card := cardNoMatch } rfl⟩

/-- C5 counterexample: with the motion-reduction preference set,
setupLazyLoading of part_002 constructs the embed but neither loads it
nor observes the container, and the fallback of setupTikTokEmbeds of
part_000 (here: IntersectionObserver unavailable) likewise constructs an
embed that is never loaded — the Placeholder does not reach the hydrated
state without user action. -/
theorem claim_c5_counterexample :
    (setupLazyLoading true true sampleUrl "TikTok video" "p.jpg").embed.isLoaded = false ∧
    (setupLazyLoading true true sampleUrl "TikTok video" "p.jpg").observerAttached = false ∧
    (setupTikTokEmbeds false false sampleUrl "TikTok video" "p.jpg").1
      = some (TikTokEmbed.mk0 sampleUrl "TikTok video" "p.jpg") ∧
    (TikTokEmbed.mk0 sampleUrl "TikTok video" "p.jpg").isLoaded = false := by decide

/-- C5 amended: only the missing-IntersectionObserver branch of part_002
treats Placeholders as immediately visible (the scheduled timeout loads
them without a visibility event); when motion reduction is preferred,
part_002 skips auto-loading entirely (no observer, embed not loaded), and
the part_000 fallback (motion reduction or missing observer support)
initializes embeds without loading them — in those cases hydration only
happens through the poster click, which does load the embed. -/
theorem claim_c5_amended :
    (∀ u t p : String, extractVideoId u ≠ "" →
        (setupLazyLoading false false u t p).embed.isLoaded = true ∧
        (setupLazyLoading false false u t p).observerAttached = false) ∧
    (∀ (u t p : String) (obs : Bool),
        (setupLazyLoading true obs u t p).embed.isLoaded = false ∧
        (setupLazyLoading true obs u t p).observerAttached = false) ∧
    (∀ (u t p : String) (r obs : Bool), (r || !obs) = true →
        setupTikTokEmbeds r obs u t p = (some (TikTokEmbed.mk0 u t p), false)) ∧
    (∀ (u t p : String) (obs : Bool), extractVideoId u ≠ "" →
        ((setupLazyLoading true obs u t p).embed).load.isLoaded = true) := by
  refine ⟨?_, ?_, ?_, ?_⟩
  · intro u t p h
    constructor <;> simp [setupLazyLoading, TikTokEmbed.load, TikTokEmbed.mk0, h]
  · intro u t p obs
    constructor <;> simp [setupLazyLoading, TikTokEmbed.mk0]
  · intro u t p r obs h
    simp [setupTikTokEmbeds, h]
  · intro u t p obs h
    simp [setupLazyLoading, TikTokEmbed.load, TikTokEmbed.mk0, h]

/-- Witness for C5 amended at the numeric sample URL. -/
theorem claim_c5_witness :
    ((setupLazyLoading false false sampleUrl "TikTok video" "p.jpg").embed.isLoaded = true ∧
      (setupLazyLoading false false sampleUrl "TikTok video" "p.jpg").observerAttached = false) ∧
    ((setupLazyLoading true true sampleUrl "TikTok video" "p.jpg").embed.isLoaded = false ∧
      (setupLazyLoading true true sampleUrl "TikTok video" "p.jpg").observerAttached = false) ∧
    setupTikTokEmbeds true true sampleUrl "TikTok video" "p.jpg"
      = (some (TikTokEmbed.mk0 sampleUrl "TikTok video" "p.jpg"), false) ∧
    ((setupLazyLoading true true sampleUrl "TikTok video" "p.jpg").embed).load.isLoaded = true :=
  ⟨claim_c5_amended.1 sampleUrl "TikTok video" "p.jpg" (by decide),
   claim_c5_amended.2.1 sampleUrl "TikTok video" "p.jpg" true,
   claim_c5_amended.2.2.1 sampleUrl "TikTok video" "p.jpg" true true rfl,
   claim_c5_amended.2.2.2 sampleUrl "TikTok video" "p.jpg" true (by decide)⟩

/-- C6 counterexample: for the Placeholder with source URL containing the
numeric identifier 123456, the iframe produced by the hydrateTikTok path
of src/app.js points at a URL whose path segment directly after embed/v2
is the literal segment video, not the extracted identifier. -/
theorem claim_c6_counterexample :
    ((hydrateTikTok page123).card.frameIframes.map fun i => segmentAfterEmbedV2 i.src)
      = [some "video"] ∧
    some "video" ≠ some "123456" := by decide

/-- C6 amended: the TikTokEmbed class does produce an embed URL with the
extracted identifier directly after embed/v2 and autoplay, muted and
controls parameters; the buildIframe path of src/app.js instead inserts
an extra path segment video, so there the identifier is the segment after
embed/v2/video (its query carries lang, autoplay, controls and muted). -/
theorem claim_c6_amended :
    (∀ e : TikTokEmbed, e.isLoaded = false → extractVideoId e.url ≠ "" →
        (e.load).iframe = some
          { src := tiktokEmbedUrl (extractVideoId e.url),
            title := e.title,
            sandbox := "allow-scripts allow-same-origin allow-presentation",
            referrerPolicy := "no-referrer-when-downgrade",
            scrolling := "no",
            allow := "fullscreen",
            allowFullscreen := true } ∧
        segmentAfterEmbedV2 (tiktokEmbedUrl (extractVideoId e.url))
          = some (extractVideoId e.url) ∧
        ("autoplay", "1") ∈ (tiktokEmbedUrl (extractVideoId e.url)).params ∧
        ("muted", "1") ∈ (tiktokEmbedUrl (extractVideoId e.url)).params ∧
        ("controls", "1") ∈ (tiktokEmbedUrl (extractVideoId e.url)).params) ∧
    (∀ videoId : String,
        (buildIframeUrl videoId).pathSegments = ["embed", "v2", "video", videoId] ∧
        segmentAfterEmbedV2 (buildIframeUrl videoId) = some "video" ∧
        ("autoplay", "1") ∈ (buildIframeUrl videoId).params ∧
        ("muted", "1") ∈ (buildIframeUrl videoId).params ∧
        ("controls", "1") ∈ (buildIframeUrl videoId).params) := by
  constructor
  · intro e h1 h2
    refine ⟨by simp [TikTokEmbed.load, h1, h2], rfl, ?_, ?_, ?_⟩ <;>
      simp [tiktokEmbedUrl]
  · intro videoId
    refine ⟨rfl, rfl, ?_, ?_, ?_⟩ <;> simp [buildIframeUrl]

/-- Witness for C6 amended at the numeric sample embed and the identifier
123456. -/
theorem claim_c6_witness :
    (embed123.load.iframe = some
        { src := tiktokEmbedUrl (extractVideoId embed123.url),
          title := embed123.title,
          sandbox := "allow-scripts allow-same-origin allow-presentation",
          referrerPolicy := "no-referrer-when-downgrade",
          scrolling := "no",
          allow := "fullscreen",
          allowFullscreen := true } ∧
      segmentAfterEmbedV2 (tiktokEmbedUrl (extractVideoId embed123.url))
        = some (extractVideoId embed123.url) ∧
      ("autoplay", "1") ∈ (tiktokEmbedUrl (extractVideoId embed123.url)).params ∧
      ("muted", "1") ∈ (tiktokEmbedUrl (extractVideoId embed123.url)).params ∧
      ("controls", "1") ∈ (tiktokEmbedUrl (extractVideoId embed123.url)).params) ∧
    ((buildIframeUrl "123456").pathSegments = ["embed", "v2", "video", "123456"] ∧
      segmentAfterEmbedV2 (buildIframeUrl "123456") = some "video" ∧
      ("autoplay", "1") ∈ (buildIframeUrl "123456").params ∧
      ("muted", "1") ∈ (buildIframeUrl "123456").params ∧
      ("controls", "1") ∈ (buildIframeUrl "123456").params) :=
  ⟨claim_c6_amended.1 embed123 rfl (by decide), claim_c6_amended.2 "123456"⟩

/-- C7 counterexample: after the first intersecting visibility event for a
container is consumed by the part_002 observer callback (triggering
hydration), the container is still observed — the detector does not
self-unsubscribe, so later visibility changes for that container are
still delivered to the embed lifecycle callback. -/
theorem claim_c7_counterexample :
    (part002ObserverStep obs002 true).observed = true ∧
    (part002ObserverStep obs002 true).embed.isLoaded = true := by decide

/-- C7 amended: the part_000 detector is one-shot — it unobserves a
container after the first intersecting event that creates its embed, and
unobserved containers receive no further events; the part_002 detector
never unsubscribes, so later events keep being delivered, but acting on
them is idempotent: intersecting events on a loaded embed and all exit
events leave the state unchanged. -/
theorem claim_c7_amended :
    (∀ s : ObservedContainer, s.observed = true → s.embed = none →
        (part000ObserverStep s true).observed = false) ∧
    (∀ (s : ObservedContainer) (b : Bool), s.observed = false →
        part000ObserverStep s b = s) ∧
    (∀ (s : ObservedEmbed) (b : Bool), (part002ObserverStep s b).observed = s.observed) ∧
    (∀ s : ObservedEmbed, s.embed.isLoaded = true → part002ObserverStep s true = s) ∧
    (∀ s : ObservedEmbed, part002ObserverStep s false = s) := by
  refine ⟨?_, ?_, ?_, ?_, ?_⟩
  · intro s h1 h2
    simp [part000ObserverStep, h1, h2]
  · intro s b h
    simp [part000ObserverStep, h]
  · intro s b
    by_cases h : s.observed = false
    · simp [part002ObserverStep, h]
    · cases b <;> by_cases h2 : s.embed.isLoaded = false <;>
        simp [part002ObserverStep, h, h2]
  · intro s h
    by_cases ho : s.observed = false <;> simp [part002ObserverStep, ho, h]
  · intro s
    by_cases ho : s.observed = false <;> simp [part002ObserverStep, ho]

/-- Witness for C7 amended at concrete observer states. -/
theorem claim_c7_witness :
    (part000ObserverStep obs000 true).observed = false ∧
    part000ObserverStep obs000done true = obs000done ∧
    (part002ObserverStep obs002 true).observed = obs002.observed ∧
    part002ObserverStep obs002loaded true = obs002loaded ∧
    part002ObserverStep obs002 false = obs002 :=
  ⟨claim_c7_amended.1 obs000 rfl rfl,
   claim_c7_amended.2.1 obs000done true rfl,
   claim_c7_amended.2.2.1 obs002 true,
   claim_c7_amended.2.2.2.1 obs002loaded (by decide),
   claim_c7_amended.2.2.2.2 obs002⟩

/-- C8 counterexample: the runtime-error fallback of the inline
hash-tiktok-card script in src/app.js is a bare Video unavailable
paragraph with no link at all, so it does not include an outbound link to
the original source URL. -/
theorem claim_c8_counterexample :
    errorLinkOf (inlineHydrateOnError inlineCard0).contents ≠ some inlineCard0.url ∧
    errorLinkOf (inlineHydrateOnError inlineCard0).contents = none := by decide

/-- C8 amended: on an embed-level runtime load error, the TikTokEmbed
handleLoadError handler replaces the container with the Video unavailable
fallback holding an outbound link to the original source URL, leaves no
iframe behind (no half-loaded container) and reveals the enclosing
press-link — the handler is total, so the error never propagates; the
inline script of src/app.js, however, swaps in a textual fallback with no
link. -/
theorem claim_c8_amended :
    (∀ e : TikTokEmbed,
        (e.handleLoadError).container
          = Contents.errorBox "Video unavailable" (some e.url) ∧
        iframeCount (e.handleLoadError).container = 0 ∧
        (e.handleLoadError).pressLinkVisible = true ∧
        errorLinkOf (e.handleLoadError).container = some e.url) ∧
    (∀ el : InlineCardState,
        (inlineHydrateOnError el).contents = Contents.errorBox "Video unavailable" none ∧
        errorLinkOf (inlineHydrateOnError el).contents = none) := by
  constructor
  · intro e
    exact ⟨rfl, rfl, rfl, rfl⟩
  · intro el
    exact ⟨rfl, rfl⟩
